import Mathlib

/-!
Shallow embedding of the swingmusic-websocket-player core
(`src/vlc_player.py`, `src/hls_manager.py`, `src/websocket_handler.py`,
`src/hls_server.py`, `src/client_session.py`, `src/config.py`).

Python floats used for positions/durations are modelled as rationals;
Python lifecycle-state strings (`"stopped"`, `"playing"`, `"error"`, ...)
are kept as strings; dictionaries are modelled as association lists.
Environment effects (subprocess spawn outcomes, filesystem contents, fresh
UUIDs) are passed in explicitly as parameters.
-/

namespace SwingMusic

/-- Source `config.py`: `HLS_HTTP_PORT = 8000`. -/
def HLS_HTTP_PORT : Nat := 8000

/-- Source `client_session.py`: `class ClientType(Enum)` with members
`SERVER_PLAYBACK = "server_playback"`, `HLS_STREAMING = "hls_streaming"`,
`CONTROLLER = "controller"`. -/
inductive ClientType where
  | server_playback
  | hls_streaming
  | controller
deriving DecidableEq, Repr, Fintype

/-- The command names registered in `WebSocketHandler.__init__`'s
`command_handlers` dispatch table (`websocket_handler.py` lines 19-45). -/
inductive Cmd where
  | register
  | get_status
  | ping
  | get_connections_count
  | kill_and_reset
  | request_hls_stream
  | stop_hls_stream
  | get_hls_url
  | hls_seek
  | hls_status
  | play
  | pause
  | stop
  | seek
  | set_volume
  | set_keep_alive
  | set_queue
  | queue_next
  | queue_previous
  | queue_jump
deriving DecidableEq, Repr

/-- Whether the handler for a given command, invoked for a registered client
of the given type, replies with an `ERROR_UNAUTHORIZED` error because of the
caller's role.  Each arm is the leading role check of the corresponding
`_handle_*` method in `websocket_handler.py`: the ten VLC playback-control
handlers and `_handle_kill_and_reset` reject a `client_type` outside
`[ClientType.SERVER_PLAYBACK, ClientType.CONTROLLER]`; the five HLS handlers
reject a `client_type` other than `ClientType.HLS_STREAMING`;
`_handle_register`, `_handle_get_status`, `_handle_ping` and
`_handle_get_connections_count` have no role check. -/
def repliesUnauthorizedOnRole (c : Cmd) (t : ClientType) : Bool :=
  match c with
  | .register => false
  | .get_status => false
  | .ping => false
  | .get_connections_count => false
  | .kill_and_reset => !(t = .server_playback ∨ t = .controller)
  | .request_hls_stream => !(t = .hls_streaming)
  | .stop_hls_stream => !(t = .hls_streaming)
  | .get_hls_url => !(t = .hls_streaming)
  | .hls_seek => !(t = .hls_streaming)
  | .hls_status => !(t = .hls_streaming)
  | .play => !(t = .server_playback ∨ t = .controller)
  | .pause => !(t = .server_playback ∨ t = .controller)
  | .stop => !(t = .server_playback ∨ t = .controller)
  | .seek => !(t = .server_playback ∨ t = .controller)
  | .set_volume => !(t = .server_playback ∨ t = .controller)
  | .set_keep_alive => !(t = .server_playback ∨ t = .controller)
  | .set_queue => !(t = .server_playback ∨ t = .controller)
  | .queue_next => !(t = .server_playback ∨ t = .controller)
  | .queue_previous => !(t = .server_playback ∨ t = .controller)
  | .queue_jump => !(t = .server_playback ∨ t = .controller)

/-- The outcome of `asyncio.create_subprocess_exec` in
`HLSStreamManager.start_stream` (`hls_manager.py` lines 76-98):
success, `FileNotFoundError` (FFmpeg binary missing), or any other
exception. -/
inductive SpawnOutcome where
  | ok
  | binaryMissing
  | spawnFailed
deriving DecidableEq, Repr

/-- The child process handle (`asyncio.subprocess.Process`): the only
attribute the manager inspects is `returncode`, `none` while the process is
still running. -/
structure ProcHandle where
  returncode : Option Int
deriving DecidableEq, Repr

/-- In-memory state of an `HLSStreamManager` (`hls_manager.py` lines 26-41),
plus `tempDirExists`, the filesystem fact the manager controls through
`temp_dir.mkdir` and `shutil.rmtree`. -/
structure HLSM where
  clientId : String
  inputPath : String
  httpPort : Nat
  streamId : String
  tempDirExists : Bool
  ffmpegProcess : Option ProcHandle
  currentPosition : ℚ
  duration : ℚ
  is_active : Bool
  state : String
  quality : String
  lastError : Option String
deriving DecidableEq, Repr

/-- Source `HLSStreamManager.__init__`: creates the temp directory
(`self.temp_dir.mkdir(parents=True, exist_ok=True)`) and initializes
`ffmpeg_process = None`, `current_position = 0.0`, `duration = 0.0`,
`is_active = False`, `state = "stopped"`, `quality = "unknown"`,
`last_error = None`. -/
def hlsInit (cid path : String) (port : Nat) (sid : String) : HLSM :=
  { clientId := cid
    inputPath := path
    httpPort := port
    streamId := sid
    tempDirExists := true
    ffmpegProcess := none
    currentPosition := 0
    duration := 0
    is_active := false
    state := "stopped"
    quality := "unknown"
    lastError := none }

/-- Source `HLSStreamManager.stop_stream` (`hls_manager.py` lines 174-208): cancels
the monitor, kills the process tree if alive, removes the temp directory
(`shutil.rmtree(self.temp_dir, ignore_errors=True)`), and resets
`ffmpeg_process`, `is_active`, `state`, `current_position`, `duration`,
`quality` — `last_error` is left untouched. -/
def hlsStop (m : HLSM) : HLSM :=
  { m with
    tempDirExists := false
    ffmpegProcess := none
    is_active := false
    state := "stopped"
    currentPosition := 0
    duration := 0
    quality := "unknown" }

/-- Source `HLSStreamManager.start_stream` (`hls_manager.py` lines 43-98): first
`await self.stop_stream()`, then `self.last_error = None`, re-creates the
temp directory, and spawns FFmpeg; on success sets `is_active = True`,
`state = "playing"`, `current_position = start_position`; on
`FileNotFoundError` or any other exception sets `ffmpeg_process = None`,
`state = "error"` and a structured `last_error`. -/
def hlsStart (m : HLSM) (startPos : ℚ) (spawn : SpawnOutcome) : HLSM :=
  let m1 := hlsStop m
  let m2 := { m1 with lastError := none, tempDirExists := true }
  match spawn with
  | .ok =>
      { m2 with
        ffmpegProcess := some { returncode := none }
        is_active := true
        state := "playing"
        currentPosition := startPos }
  | .binaryMissing =>
      { m2 with
        ffmpegProcess := none
        state := "error"
        lastError := some "FFMPEG_NOT_FOUND" }
  | .spawnFailed =>
      { m2 with
        ffmpegProcess := none
        state := "error"
        lastError := some "FFMPEG_START_FAILED" }

/-- Source `HLSStreamManager.seek_stream` (`hls_manager.py` lines 214-227): fails
when `not self.is_active` (recording `HLS_SEEK_FAILED`), otherwise restarts
via `start_stream(start_position=seek_position)` and returns the resulting
`is_active`, recording `HLS_SEEK_FAILED` when the restart failed. -/
def hlsSeek (m : HLSM) (pos : ℚ) (spawn : SpawnOutcome) : Bool × HLSM :=
  if !m.is_active then
    (false, { m with lastError := some "HLS_SEEK_FAILED" })
  else
    let m1 := hlsStart m pos spawn
    if m1.is_active then (true, m1)
    else (false, { m1 with lastError := some "HLS_SEEK_FAILED" })

/-- One line-reading pass of `HLSStreamManager._monitor_ffmpeg_process`
(`hls_manager.py` lines 105-148) while the process is alive: best-effort
updates of `duration` (only when `self.duration == 0`), `current_position`
and `quality` from whatever the stderr line yields. -/
def hlsMonitorLine (m : HLSM) (d p : Option ℚ) (q : Option String) : HLSM :=
  { m with
    duration := if m.duration = 0 then d.getD m.duration else m.duration
    currentPosition := p.getD m.currentPosition
    quality := q.getD m.quality }

/-- The monitor loop's exception exit path (`hls_manager.py` lines 152-157
then 172): records `state = "error"` with `FFMPEG_MONITOR_ERROR`, breaks,
and — since the returncode is still `None` — falls through to the final
`await self.stop_stream()`. -/
def hlsMonitorFail (m : HLSM) : HLSM :=
  hlsStop { m with state := "error", lastError := some "FFMPEG_MONITOR_ERROR" }

/-- The monitor loop's process-exit path (`hls_manager.py` lines 159-172):
with the child's returncode now set, a nonzero code records
`state = "error"` with `FFMPEG_PROCESS_FAILED`, a zero code records
`state = "stopped"`; then the unconditional `await self.stop_stream()`. -/
def hlsMonitorExit (m : HLSM) (code : Int) : HLSM :=
  let m1 :=
    if code ≠ 0 then { m with state := "error", lastError := some "FFMPEG_PROCESS_FAILED" }
    else { m with state := "stopped" }
  hlsStop m1

/-- Source `HLSStreamManager.get_playlist_url` (`hls_manager.py` lines 210-212):
`f"http://localhost:{self.http_port}/{self.client_id}/{self.stream_id}.m3u8"`. -/
def getPlaylistUrl (m : HLSM) : String :=
  "http://localhost:" ++ toString m.httpPort ++ "/" ++ m.clientId ++ "/"
    ++ m.streamId ++ ".m3u8"

/-- The playlist-URL shape as the spec words it
(`scheme://host:port/{sessionId}/{sessionId}.manifestExt`): both path
components are the stream session's own ID. -/
def specPlaylistUrl (m : HLSM) : String :=
  "http://localhost:" ++ toString m.httpPort ++ "/" ++ m.streamId ++ "/"
    ++ m.streamId ++ ".m3u8"

/-- States of an `HLSStreamManager` reachable from construction by any
sequence of `start_stream`, `stop_stream`, `seek_stream` calls and
monitor-loop / child-process steps.  The monitor-loop steps are guarded by
the loop condition `self.ffmpeg_process and self.ffmpeg_process.returncode
is None`; `procExits` is the environment step in which the child process
terminates with some exit code. -/
inductive HLSReach : HLSM → Prop where
  | init (cid path : String) (port : Nat) (sid : String) :
      HLSReach (hlsInit cid path port sid)
  | start {m : HLSM} (pos : ℚ) (spawn : SpawnOutcome) :
      HLSReach m → HLSReach (hlsStart m pos spawn)
  | stop {m : HLSM} :
      HLSReach m → HLSReach (hlsStop m)
  | seek {m : HLSM} (pos : ℚ) (spawn : SpawnOutcome) :
      HLSReach m → HLSReach (hlsSeek m pos spawn).2
  | monitorLine {m : HLSM} (d p : Option ℚ) (q : Option String) :
      HLSReach m → m.ffmpegProcess = some { returncode := none } →
      HLSReach (hlsMonitorLine m d p q)
  | monitorFail {m : HLSM} :
      HLSReach m → m.ffmpegProcess = some { returncode := none } →
      HLSReach (hlsMonitorFail m)
  | procExits {m : HLSM} (code : Int) :
      HLSReach m → m.ffmpegProcess = some { returncode := none } →
      HLSReach { m with ffmpegProcess := some { returncode := some code } }
  | monitorExit {m : HLSM} (code : Int) :
      HLSReach m → m.ffmpegProcess = some { returncode := some code } →
      HLSReach (hlsMonitorExit m code)

/-- The post-construction baseline of every field other than `lastError`
and the temp directory (`hls_manager.py` lines 33-39). -/
def hlsBaselineCore (m : HLSM) : Prop :=
  m.ffmpegProcess = none ∧ m.is_active = false ∧ m.state = "stopped" ∧
    m.currentPosition = 0 ∧ m.duration = 0 ∧ m.quality = "unknown"

/-- Source `HLSStreamManager.get_stream_status` (`hls_manager.py` lines 229-244). -/
structure HLSStatus where
  is_active : Bool
  track_id : String
  hls_url : Option String
  current_position : ℚ
  duration : ℚ
  state : String
  quality : String
  process_health : String
  last_error : Option String
deriving DecidableEq, Repr

/-- Source `HLSStreamManager.get_stream_status`: the status dict assembled from the
manager's fields; `hls_url` is the playlist URL only when `is_active`, and
`process_health` is `"running"` only while a spawned process has no
returncode yet. -/
def hlsGetStatus (m : HLSM) : HLSStatus :=
  { is_active := m.is_active
    track_id := m.inputPath
    hls_url := if m.is_active then some (getPlaylistUrl m) else none
    current_position := m.currentPosition
    duration := m.duration
    state := m.state
    quality := m.quality
    process_health :=
      match m.ffmpegProcess with
      | some h => if h.returncode = none then "running" else "stopped"
      | none => "stopped"
    last_error := m.lastError }

/-- The state of the shared playback engine (the opaque `vlc.MediaPlayer`):
only the transitions driven by `vlc_player.py` are modelled. -/
inductive EngineState where
  | stopped
  | playing
  | paused
deriving DecidableEq, Repr

/-- Source `client_session.py`: a `ClientSession`'s fields used by the controller —
its ID, role and optional `HLSStreamManager`.  The websocket handle and the
metadata map are opaque and elided. -/
structure CSession where
  clientId : String
  clientType : ClientType
  hlsManager : Option HLSM
deriving DecidableEq, Repr

/-- The in-memory state of the `VLCPlayer` singleton (`vlc_player.py` lines
36-64): the client registry and websocket map (association list / list of
IDs), the queue with its index, the keep-alive and auto-advance flags, the
current track, the engine, the opaque tracklist payload, and whether each
background task is running. -/
structure PState where
  activeClients : List (String × CSession)
  websocketConnections : List String
  queue : List String
  currentQueueIndex : Int
  autoAdvance : Bool
  keepAlive : Bool
  currentTrackPath : Option String
  engine : EngineState
  tracklistData : Option String
  statusBroadcasterRunning : Bool
  trackEndListenerRunning : Bool
deriving DecidableEq, Repr

/-- Source `dict.get` on the client registry (`VLCPlayer.get_client_session`). -/
def findClient (cid : String) : List (String × CSession) → Option CSession
  | [] => none
  | (k, v) :: rest => if k = cid then some v else findClient cid rest

/-- Source `dict.pop(client_id, None)`: the registry without the given key. -/
def removeClient (cid : String) (l : List (String × CSession)) :
    List (String × CSession) :=
  l.filter (fun p => p.1 ≠ cid)

/-- In-place mutation of the `ClientSession` object stored under a key
(e.g. `client_session.hls_manager = hls_manager`). -/
def updateClient (cid : String) (v : CSession) :
    List (String × CSession) → List (String × CSession)
  | [] => []
  | (k, w) :: rest =>
    if k = cid then (k, v) :: updateClient cid v rest
    else (k, w) :: updateClient cid v rest

/-- Source `VLCPlayer.stop` (`vlc_player.py` lines 269-278): clears
`current_track_path`, stops the engine, and cancels the track-end listener
task if it is running. -/
def vlcStop (s : PState) : PState :=
  { s with
    currentTrackPath := none
    engine := .stopped
    trackEndListenerRunning := false }

/-- Source `VLCPlayer.set_queue` (`vlc_player.py` lines 162-169): replaces the
queue with a copy of `filepaths`, sets
`current_queue_index = max(0, min(start_index, len(self.queue) - 1))`, and
stores the tracklist payload verbatim. -/
def setQueue (s : PState) (filepaths : List String) (startIndex : Int)
    (tracklistData : Option String) : PState :=
  { s with
    queue := filepaths
    currentQueueIndex := max 0 (min startIndex ((filepaths.length : Int) - 1))
    tracklistData := tracklistData }

/-- Source `VLCPlayer.play_new` (`vlc_player.py` lines 219-255): validates that the
file exists (`fileOk` is the filesystem's answer), else returns an error
without mutating; otherwise records the track, plays (or preloads paused),
and starts the track-end listener when a queue is configured.  Returns the
state and whether an error was reported. -/
def playNew (s : PState) (path : String) (playImmediately fileOk : Bool) :
    PState × Bool :=
  if !fileOk then (s, true)
  else
    let s1 := { s with
      currentTrackPath := some path
      engine := if playImmediately then EngineState.playing else EngineState.paused }
    let s2 :=
      if !s1.queue.isEmpty && !s1.trackEndListenerRunning then
        { s1 with trackEndListenerRunning := true }
      else s1
    (s2, false)

/-- Source `VLCPlayer.play_next_in_queue` (`vlc_player.py` lines 181-191): returns
`False` untouched when the queue is empty or
`current_queue_index >= len(queue) - 1`; otherwise increments the index and
plays that track. -/
def playNextInQueue (s : PState) (fileOk : Bool) : Bool × PState :=
  if s.queue.isEmpty || s.currentQueueIndex ≥ (s.queue.length : Int) - 1 then
    (false, s)
  else
    let s1 := { s with currentQueueIndex := s.currentQueueIndex + 1 }
    let track := s1.queue.getD s1.currentQueueIndex.toNat ""
    (true, (playNew s1 track true fileOk).1)

/-- Source `VLCPlayer.play_previous_in_queue` (`vlc_player.py` lines 193-203):
returns `False` untouched when the queue is empty or
`current_queue_index <= 0`; otherwise decrements the index and plays that
track. -/
def playPreviousInQueue (s : PState) (fileOk : Bool) : Bool × PState :=
  if s.queue.isEmpty || s.currentQueueIndex ≤ 0 then
    (false, s)
  else
    let s1 := { s with currentQueueIndex := s.currentQueueIndex - 1 }
    let track := s1.queue.getD s1.currentQueueIndex.toNat ""
    (true, (playNew s1 track true fileOk).1)

/-- Source `VLCPlayer.unregister_client` (`vlc_player.py` lines 360-377): pops the
client from both maps, stops its `HLSStreamManager` if present, then stops
the engine only when no clients remain and keep-alive is off.  Returns the
new state together with the final state of the stopped stream manager, when
there was one. -/
def unregisterClient (s : PState) (cid : String) : PState × Option HLSM :=
  let sessionOpt := findClient cid s.activeClients
  let s1 := { s with
    activeClients := removeClient cid s.activeClients
    websocketConnections := s.websocketConnections.filter (fun w => w ≠ cid) }
  let stoppedMgr := (sessionOpt.bind (fun cs => cs.hlsManager)).map hlsStop
  let s2 :=
    if s1.activeClients.isEmpty && !s1.keepAlive then vlcStop s1 else s1
  (s2, stoppedMgr)

/-- Source `VLCPlayer.kill_all_connections_and_reset` (`vlc_player.py` lines
383-423): stops every client's `HLSStreamManager` and closes every
websocket, clears both maps, empties the queue (index 0, auto-advance back
to its default `True`), stops the engine, clears keep-alive, and cancels
both background tasks.  Returns the new state together with the final
states of all the stream managers that were stopped. -/
def killAllConnectionsAndReset (s : PState) : PState × List HLSM :=
  let stoppedMgrs :=
    s.activeClients.filterMap (fun p => p.2.hlsManager.map hlsStop)
  let s1 := { s with
    activeClients := []
    websocketConnections := []
    queue := []
    currentQueueIndex := 0
    autoAdvance := true }
  let s2 := vlcStop s1
  let s3 := { s2 with
    keepAlive := false
    statusBroadcasterRunning := false
    trackEndListenerRunning := false }
  (s3, stoppedMgrs)

/-- Source `VLCPlayer.start_hls_for_client` (`vlc_player.py` lines 70-107): bails
out (returning `None`, state unchanged) for an unknown client, a
non-HLS_STREAMING client, or a missing media file; otherwise stops any
pre-existing stream, builds a fresh `HLSStreamManager` (fresh stream UUID
`freshId`), attaches it to the session, and starts it.  If
`hls_manager.ffmpeg_process` is set afterwards the playlist URL is
returned; otherwise the session's `hls_manager` is reset to `None` and
`None` is returned. -/
def startHlsForClient (s : PState) (cid trackId : String) (startPos : ℚ)
    (fileOk : Bool) (freshId : String) (spawn : SpawnOutcome) :
    Option String × PState :=
  match findClient cid s.activeClients with
  | none => (none, s)
  | some cs =>
    if cs.clientType ≠ ClientType.hls_streaming then (none, s)
    else if !fileOk then (none, s)
    else
      let mgr := hlsStart (hlsInit cid trackId HLS_HTTP_PORT freshId) startPos spawn
      if mgr.ffmpegProcess.isSome then
        (some (getPlaylistUrl mgr),
         { s with activeClients :=
             updateClient cid { cs with hlsManager := some mgr } s.activeClients })
      else
        (none,
         { s with activeClients :=
             updateClient cid { cs with hlsManager := none } s.activeClients })

/-- Source `VLCPlayer.get_client_hls_url` (`vlc_player.py` lines 129-134): `None`
unless the client exists, has an `hls_manager`, and that manager has a live
`ffmpeg_process`. -/
def getClientHlsUrl (s : PState) (cid : String) : Option String :=
  match findClient cid s.activeClients with
  | none => none
  | some cs =>
    match cs.hlsManager with
    | none => none
    | some m => if m.ffmpegProcess.isSome then some (getPlaylistUrl m) else none

/-- Source `VLCPlayer.get_hls_stream_status` (`vlc_player.py` lines 146-153):
`None` unless the client exists and has an `hls_manager`; otherwise that
manager's status dict. -/
def getHlsStreamStatus (s : PState) (cid : String) : Option HLSStatus :=
  match findClient cid s.activeClients with
  | none => none
  | some cs => cs.hlsManager.map hlsGetStatus

/-- Whether the first character list starts with the second. -/
def startsWithChars : List Char → List Char → Bool
  | _, [] => true
  | [], _ :: _ => false
  | a :: as, b :: bs => a = b && startsWithChars as bs

/-- Whether the first character list contains the second as a contiguous
run (Python's `pat in s`). -/
def containsChars : List Char → List Char → Bool
  | s, pat =>
    if startsWithChars s pat then true
    else
      match s with
      | [] => false
      | _ :: rest => containsChars rest pat

/-- Python's substring test `pat in s`. -/
def strIn (pat s : String) : Bool :=
  containsChars s.data pat.data

/-- The possible outcomes of `hls_file_server_handler` (`hls_server.py`
lines 14-51): 403, 404, serving a file from a path, or an uncaught Python
exception (which aiohttp surfaces as a 500 Internal Server Error). -/
inductive HttpOutcome where
  | forbidden
  | notFound
  | served (path : String)
  | internalError (message : String)
deriving DecidableEq, Repr

/-- The attribute read `player.connected_clients` in
`hls_file_server_handler` (`hls_server.py` line 29).  `VLCPlayer.__init__`
(`vlc_player.py`) assigns `active_clients` and never assigns an attribute
named `connected_clients`, so on the `VLCPlayer` singleton imported by
`hls_server.py` this attribute access raises `AttributeError`; the model
therefore returns `none` (no such attribute) for every state. -/
def playerConnectedClientsAttr (_ : PState) : Option (List (String × CSession)) :=
  none

/-- Source `hls_file_server_handler` (`hls_server.py` lines 14-51): 404 on a
missing match-info component; 403 when the filename contains `".."`, `"/"`
or `"\"`; then looks up `player.connected_clients.get(client_id)` — an
attribute access that raises `AttributeError` (see
`playerConnectedClientsAttr`); had the registry attribute existed, an
unknown client, a client with no `hls_manager`, or a missing file would
give 404, and otherwise the file `temp_dir / filename` is served.
`isFile path` is the filesystem's answer to `file_path.is_file()`. -/
def hlsFileServerHandler (s : PState) (isFile : String → Bool)
    (clientId filename : String) : HttpOutcome :=
  if clientId = "" ∨ filename = "" then .notFound
  else if strIn ".." filename || strIn "/" filename || strIn "\\" filename then
    .forbidden
  else
    match playerConnectedClientsAttr s with
    | none => .internalError "AttributeError: VLCPlayer object has no attribute connected_clients"
    | some registry =>
      match findClient clientId registry with
      | none => .notFound
      | some cs =>
        match cs.hlsManager with
        | none => .notFound
        | some m =>
          let path := "/tmp/hls_streams/" ++ m.streamId ++ "/" ++ filename
          if !isFile path then .notFound else .served path

/-! ### Theorems -/

/-- A concrete controller state used to instantiate theorems: one-element
queue `["a"]` at index 0, no clients, keep-alive off. -/
def samplePState : PState :=
  { activeClients := []
    websocketConnections := []
    queue := ["a"]
    currentQueueIndex := 0
    autoAdvance := true
    keepAlive := false
    currentTrackPath := none
    engine := .stopped
    tracklistData := none
    statusBroadcasterRunning := false
    trackEndListenerRunning := false }

/-- C1, counterexample: `kill_and_reset` is not the only role-restricted
command — the `play` handler replies Unauthorized to an `hls_streaming`
client on grounds of its role. -/
theorem C1_counterexample :
    repliesUnauthorizedOnRole Cmd.play ClientType.hls_streaming = true ∧
      Cmd.play ≠ Cmd.kill_and_reset := by
  decide

/-- C1 (amended): `kill_and_reset` replies Unauthorized exactly when the
caller's role is neither SERVER_PLAYBACK nor CONTROLLER, but it is not the
only role-restricted command: the ten playback-control commands carry the
identical restriction, the five HLS commands reply Unauthorized exactly
when the role is not HLS_STREAMING, and only `REGISTER`, `get_status`,
`ping` and `get_connections_count` are never role-restricted. -/
theorem C1_role_restrictions :
    (∀ t : ClientType,
      repliesUnauthorizedOnRole Cmd.kill_and_reset t =
        !(t = ClientType.server_playback ∨ t = ClientType.controller)) ∧
    (∀ c ∈ [Cmd.play, Cmd.pause, Cmd.stop, Cmd.seek, Cmd.set_volume,
        Cmd.set_keep_alive, Cmd.set_queue, Cmd.queue_next,
        Cmd.queue_previous, Cmd.queue_jump],
      ∀ t : ClientType,
        repliesUnauthorizedOnRole c t =
          repliesUnauthorizedOnRole Cmd.kill_and_reset t) ∧
    (∀ c ∈ [Cmd.request_hls_stream, Cmd.stop_hls_stream, Cmd.get_hls_url,
        Cmd.hls_seek, Cmd.hls_status],
      ∀ t : ClientType,
        repliesUnauthorizedOnRole c t = !(t = ClientType.hls_streaming)) ∧
    (∀ c ∈ [Cmd.register, Cmd.get_status, Cmd.ping, Cmd.get_connections_count],
      ∀ t : ClientType, repliesUnauthorizedOnRole c t = false) := by
  decide

/-- Witness for `C1_role_restrictions` at concrete inputs. -/
theorem C1_role_restrictions_witness :
    repliesUnauthorizedOnRole Cmd.pause ClientType.hls_streaming =
      repliesUnauthorizedOnRole Cmd.kill_and_reset ClientType.hls_streaming ∧
    repliesUnauthorizedOnRole Cmd.hls_seek ClientType.controller =
      !(ClientType.controller = ClientType.hls_streaming) ∧
    repliesUnauthorizedOnRole Cmd.ping ClientType.hls_streaming = false := by
  exact ⟨C1_role_restrictions.2.1 Cmd.pause (by decide) ClientType.hls_streaming,
    C1_role_restrictions.2.2.1 Cmd.hls_seek (by decide) ClientType.controller,
    C1_role_restrictions.2.2.2 Cmd.ping (by decide) ClientType.hls_streaming⟩

/-- C3, counterexample: after a start that failed with a missing FFmpeg
binary, `stop_stream` leaves `last_error` set, although the
post-construction baseline for `last_error` is `None`. -/
theorem C3_counterexample :
    (hlsStop (hlsStart (hlsInit "c" "/music/t.mp3" 8000 "s") 0
        SpawnOutcome.binaryMissing)).lastError = some "FFMPEG_NOT_FOUND" ∧
    (hlsInit "c" "/music/t.mp3" 8000 "s").lastError = none := by
  exact ⟨rfl, rfl⟩

/-- C3 (amended): one call to `stop_stream` resets the process handle,
`is_active`, `state`, `current_position`, `duration` and `quality` to the
STOPPED baseline and removes the temp directory, but preserves
`last_error`; a second `stop_stream` changes nothing. -/
theorem C3_stop_stream_resets (m : HLSM) :
    hlsBaselineCore (hlsStop m) ∧
    (hlsStop m).tempDirExists = false ∧
    (hlsStop m).lastError = m.lastError ∧
    hlsStop (hlsStop m) = hlsStop m := by
  exact ⟨⟨rfl, rfl, rfl, rfl, rfl, rfl⟩, rfl, rfl, rfl⟩

/-- C4, counterexample: the playlist URL of a session whose stream ID
differs from its owning client's ID does not have the spec's
`/{sessionId}/{sessionId}` shape — the directory component is the client
ID. -/
theorem C4_counterexample :
    getPlaylistUrl (hlsInit "client-1" "/m.mp3" 8000 "stream-1") =
      "http://localhost:8000/client-1/stream-1.m3u8" ∧
    getPlaylistUrl (hlsInit "client-1" "/m.mp3" 8000 "stream-1") ≠
      specPlaylistUrl (hlsInit "client-1" "/m.mp3" 8000 "stream-1") := by
  exact ⟨rfl, by decide⟩

/-- C4 (amended): the computed playlist URL has the shape
`scheme://host:port/{clientId}/{streamId}.manifestExt` — the directory
component is the owning client's ID and the manifest filename stem is the
stream session's ID; whenever the two IDs differ the URL therefore differs
from the spec's `/{sessionId}/{sessionId}` shape. -/
theorem C4_playlist_url_shape (m : HLSM) :
    getPlaylistUrl m =
      "http://localhost:" ++ toString m.httpPort ++ "/" ++ m.clientId ++ "/"
        ++ m.streamId ++ ".m3u8" ∧
    (m.clientId ≠ m.streamId → getPlaylistUrl m ≠ specPlaylistUrl m) := by
  refine ⟨rfl, fun hne heq => hne ?_⟩
  have hd : (getPlaylistUrl m).data = (specPlaylistUrl m).data := by rw [heq]
  simp only [getPlaylistUrl, specPlaylistUrl, String.data_append,
    List.append_assoc] at hd
  have h4 : m.clientId.data = m.streamId.data :=
    List.append_cancel_right
      (List.append_cancel_left (List.append_cancel_left
        (List.append_cancel_left hd)))
  have hgen : ∀ a b : String, a.data = b.data → a = b := by
    intro a b h
    cases a
    cases b
    simp_all
  exact hgen _ _ h4

/-- Witness for `C4_playlist_url_shape` at a concrete session. -/
theorem C4_playlist_url_shape_witness :
    getPlaylistUrl (hlsInit "client-1" "/m.mp3" 8000 "stream-1") =
      "http://localhost:" ++ toString 8000 ++ "/" ++ "client-1" ++ "/"
        ++ "stream-1" ++ ".m3u8" ∧
    getPlaylistUrl (hlsInit "client-1" "/m.mp3" 8000 "stream-1") ≠
      specPlaylistUrl (hlsInit "client-1" "/m.mp3" 8000 "stream-1") := by
  exact ⟨(C4_playlist_url_shape (hlsInit "client-1" "/m.mp3" 8000 "stream-1")).1,
    (C4_playlist_url_shape (hlsInit "client-1" "/m.mp3" 8000 "stream-1")).2
      (by decide)⟩

/-- C7: `set_queue` replaces the queue wholesale and sets the index to
`max(0, min(startIndex, length - 1))`; in particular start index 5 on a
three-track queue clamps to 2, and an empty queue always yields index 0. -/
theorem C7_setQueue_clamps (s : PState) (filepaths : List String)
    (startIndex : Int) (td : Option String) :
    (setQueue s filepaths startIndex td).queue = filepaths ∧
    (setQueue s filepaths startIndex td).currentQueueIndex =
      max 0 (min startIndex ((filepaths.length : Int) - 1)) ∧
    (setQueue s ["a", "b", "c"] 5 td).currentQueueIndex = 2 ∧
    (setQueue s [] startIndex td).currentQueueIndex = 0 ∧
    (setQueue s [] startIndex td).queue = [] := by
  refine ⟨rfl, rfl, by simp only [setQueue]; decide, ?_, rfl⟩
  simp only [setQueue, List.length_nil]
  omega

/-- C8: `play_next_in_queue` at the last index (or on an empty queue)
returns failure with the whole state — in particular index and queue —
unchanged; `play_previous_in_queue` at index 0 (or on an empty queue)
likewise. -/
theorem C8_queue_boundary_failures (s : PState) (fileOk : Bool) :
    (s.queue = [] → playNextInQueue s fileOk = (false, s)) ∧
    (s.currentQueueIndex = (s.queue.length : Int) - 1 →
      playNextInQueue s fileOk = (false, s)) ∧
    (s.queue = [] → playPreviousInQueue s fileOk = (false, s)) ∧
    (s.currentQueueIndex = 0 → playPreviousInQueue s fileOk = (false, s)) := by
  refine ⟨fun h => ?_, fun h => ?_, fun h => ?_, fun h => ?_⟩
  · simp [playNextInQueue, h]
  · simp [playNextInQueue, h]
  · simp [playPreviousInQueue, h]
  · simp [playPreviousInQueue, h]

/-- Witness for `C8_queue_boundary_failures` on the one-track sample state,
where index 0 is simultaneously the last index and index 0. -/
theorem C8_queue_boundary_failures_witness :
    playNextInQueue samplePState true = (false, samplePState) ∧
    playPreviousInQueue samplePState true = (false, samplePState) := by
  exact ⟨(C8_queue_boundary_failures samplePState true).2.1 (by decide),
    (C8_queue_boundary_failures samplePState true).2.2.2 (by decide)⟩

/-- A stream manager with no live child process and no surviving temp
directory, in the stopped lifecycle state. -/
def fullyStopped (m : HLSM) : Bool :=
  m.ffmpegProcess.isNone && !m.tempDirExists && (m.state == "stopped")
    && !m.is_active

theorem fullyStopped_hlsStop (m : HLSM) : fullyStopped (hlsStop m) = true := rfl

theorem all_fullyStopped_of_stopped (l : List (String × CSession)) :
    ((l.filterMap (fun p => p.2.hlsManager.map hlsStop)).all fullyStopped)
      = true := by
  induction l with
  | nil => rfl
  | cons hd tl ih =>
    cases h : hd.2.hlsManager with
    | none => simpa [List.filterMap_cons, h] using ih
    | some m =>
      simp [List.filterMap_cons, h, ih, fullyStopped_hlsStop]

theorem findClient_removeClient (cid : String) (l : List (String × CSession)) :
    findClient cid (removeClient cid l) = none := by
  induction l with
  | nil => rfl
  | cons hd tl ih =>
    by_cases h : hd.1 = cid
    · simpa [removeClient, h] using ih
    · simpa [removeClient, findClient, h] using ih

/-- C5: after `kill_all_connections_and_reset`, from any controller state:
the client registry and websocket map are empty, the queue is empty with
index 0, keep-alive is false, the engine is stopped with no current track,
and every previously attached StreamSession has been stopped — no live
child process, no surviving temp directory. -/
theorem C5_kill_all_and_reset (s : PState) :
    (killAllConnectionsAndReset s).1.activeClients = [] ∧
    (killAllConnectionsAndReset s).1.websocketConnections = [] ∧
    (killAllConnectionsAndReset s).1.queue = [] ∧
    (killAllConnectionsAndReset s).1.currentQueueIndex = 0 ∧
    (killAllConnectionsAndReset s).1.keepAlive = false ∧
    (killAllConnectionsAndReset s).1.engine = EngineState.stopped ∧
    (killAllConnectionsAndReset s).1.currentTrackPath = none ∧
    (killAllConnectionsAndReset s).2 =
      (s.activeClients.filterMap (fun p => p.2.hlsManager)).map hlsStop ∧
    ((killAllConnectionsAndReset s).2.all fullyStopped) = true := by
  refine ⟨rfl, rfl, rfl, rfl, rfl, rfl, rfl, ?_, ?_⟩
  · simpa [killAllConnectionsAndReset] using
      (List.map_filterMap (fun p : String × CSession => p.2.hlsManager)
        hlsStop s.activeClients).symm
  · exact all_fullyStopped_of_stopped s.activeClients

/-- C6: `unregister_client` removes the client's session, stops that
client's StreamSession if one exists (the returned manager state is fully
stopped), and then: if zero clients remain and keep-alive is false the
shared engine is stopped with the current track cleared; if zero clients
remain and keep-alive is true, engine state and current track are
unchanged; if other clients remain the engine and current track are
untouched. -/
theorem C6_unregister_client (s : PState) (cid : String) :
    findClient cid (unregisterClient s cid).1.activeClients = none ∧
    (unregisterClient s cid).2 =
      ((findClient cid s.activeClients).bind
        (fun cs => cs.hlsManager)).map hlsStop ∧
    ((unregisterClient s cid).2.all fullyStopped) = true ∧
    ((unregisterClient s cid).1.activeClients = [] → s.keepAlive = false →
      (unregisterClient s cid).1.engine = EngineState.stopped ∧
      (unregisterClient s cid).1.currentTrackPath = none) ∧
    ((unregisterClient s cid).1.activeClients = [] → s.keepAlive = true →
      (unregisterClient s cid).1.engine = s.engine ∧
      (unregisterClient s cid).1.currentTrackPath = s.currentTrackPath) ∧
    ((unregisterClient s cid).1.activeClients ≠ [] →
      (unregisterClient s cid).1.engine = s.engine ∧
      (unregisterClient s cid).1.currentTrackPath = s.currentTrackPath) := by
  refine ⟨?_, rfl, ?_, ?_, ?_, ?_⟩
  · by_cases h : (removeClient cid s.activeClients).isEmpty && !s.keepAlive
    · simpa [unregisterClient, h, vlcStop] using
        findClient_removeClient cid s.activeClients
    · simpa [unregisterClient, h] using
        findClient_removeClient cid s.activeClients
  · cases h : (findClient cid s.activeClients).bind (fun cs => cs.hlsManager) with
    | none => simp [unregisterClient, h]
    | some m => simp [unregisterClient, h, fullyStopped_hlsStop]
  · intro hempty hka
    by_cases h : (removeClient cid s.activeClients).isEmpty && !s.keepAlive
    · simp [unregisterClient, h, vlcStop]
    · exfalso
      apply h
      simp only [unregisterClient] at hempty
      by_cases h2 : (removeClient cid s.activeClients).isEmpty && !s.keepAlive
      · simp [h2, hka]
        simp [h2, vlcStop] at hempty
        simpa [List.isEmpty_iff] using hempty
      · simp [h2] at hempty
        simp [hka]
        simpa [List.isEmpty_iff] using hempty
  · intro hempty hka
    have h : ((removeClient cid s.activeClients).isEmpty && !s.keepAlive) = false := by
      simp [hka]
    simp [unregisterClient, h]
  · intro hne
    by_cases h : (removeClient cid s.activeClients).isEmpty && !s.keepAlive
    · exfalso
      apply hne
      simp only [unregisterClient, h, if_true, vlcStop]
      have h1 : (removeClient cid s.activeClients).isEmpty = true := by
        have h2 := h
        simp only [Bool.and_eq_true] at h2
        exact h2.1
      simpa [List.isEmpty_iff] using h1
    · simp [unregisterClient, h]

/-- A stream manager as built by a successful `start_stream`. -/
def sampleManager : HLSM :=
  hlsStart (hlsInit "c1" "/m.mp3" 8000 "s1") 0 SpawnOutcome.ok

/-- A registered `hls_streaming` client session owning `sampleManager`. -/
def sampleSession : CSession :=
  { clientId := "c1", clientType := .hls_streaming, hlsManager := some sampleManager }

/-- A controller state with one busy client and active playback. -/
def sampleBusyState : PState :=
  { samplePState with
    activeClients := [("c1", sampleSession)]
    websocketConnections := ["c1"]
    engine := .playing
    currentTrackPath := some "/m.mp3" }

/-- Witness for `C6_unregister_client`: unregistering the sole client of
`sampleBusyState` (keep-alive off) stops the engine and clears the track. -/
theorem C6_unregister_client_witness :
    findClient "c1" (unregisterClient sampleBusyState "c1").1.activeClients
      = none ∧
    (unregisterClient sampleBusyState "c1").1.engine = EngineState.stopped ∧
    (unregisterClient sampleBusyState "c1").1.currentTrackPath = none := by
  refine ⟨(C6_unregister_client sampleBusyState "c1").1, ?_, ?_⟩
  · exact ((C6_unregister_client sampleBusyState "c1").2.2.2.1 (by decide) rfl).1
  · exact ((C6_unregister_client sampleBusyState "c1").2.2.2.1 (by decide) rfl).2

theorem findClient_updateClient (cid : String) (v : CSession)
    (l : List (String × CSession)) :
    findClient cid (updateClient cid v l) =
      (findClient cid l).map (fun _ => v) := by
  induction l with
  | nil => rfl
  | cons hd tl ih =>
    obtain ⟨k, w⟩ := hd
    by_cases h : k = cid
    · simp [updateClient, findClient, h]
    · simp [updateClient, findClient, h, ih]

/-- C10: when the transcoder process fails to spawn (binary missing or any
other spawn error), `start_hls_for_client` returns `None` and resets the
client session's `hls_manager` to `None`, so a subsequent
`get_client_hls_url` or `get_hls_stream_status` for that client returns
`None` instead of exposing the failed manager. -/
theorem C10_failed_start_clears_manager (s : PState)
    (cid trackId freshId : String) (pos : ℚ) (spawn : SpawnOutcome)
    (cs : CSession)
    (hfind : findClient cid s.activeClients = some cs)
    (htype : cs.clientType = ClientType.hls_streaming)
    (hspawn : spawn ≠ SpawnOutcome.ok) :
    (startHlsForClient s cid trackId pos true freshId spawn).1 = none ∧
    findClient cid
        (startHlsForClient s cid trackId pos true freshId spawn).2.activeClients
      = some { cs with hlsManager := none } ∧
    getClientHlsUrl
        (startHlsForClient s cid trackId pos true freshId spawn).2 cid = none ∧
    getHlsStreamStatus
        (startHlsForClient s cid trackId pos true freshId spawn).2 cid
      = none := by
  have hproc :
      (hlsStart (hlsInit cid trackId HLS_HTTP_PORT freshId) pos spawn).ffmpegProcess
        = none := by
    cases spawn with
    | ok => exact absurd rfl hspawn
    | binaryMissing => rfl
    | spawnFailed => rfl
  refine ⟨?_, ?_, ?_, ?_⟩
  · simp [startHlsForClient, hfind, htype, hproc]
  · simp [startHlsForClient, hfind, htype, hproc, findClient_updateClient]
  · simp [getClientHlsUrl, startHlsForClient, hfind, htype, hproc,
      findClient_updateClient]
  · simp [getHlsStreamStatus, startHlsForClient, hfind, htype, hproc,
      findClient_updateClient]

/-- Witness for `C10_failed_start_clears_manager`: a failed restart for the
busy sample client leaves no URL and no status. -/
theorem C10_failed_start_clears_manager_witness :
    (startHlsForClient sampleBusyState "c1" "/m.mp3" 0 true "s2"
        SpawnOutcome.binaryMissing).1 = none ∧
    getClientHlsUrl (startHlsForClient sampleBusyState "c1" "/m.mp3" 0 true
        "s2" SpawnOutcome.binaryMissing).2 "c1" = none ∧
    getHlsStreamStatus (startHlsForClient sampleBusyState "c1" "/m.mp3" 0
        true "s2" SpawnOutcome.binaryMissing).2 "c1" = none := by
  have h := C10_failed_start_clears_manager sampleBusyState "c1" "/m.mp3" "s2"
    0 SpawnOutcome.binaryMissing sampleSession rfl rfl (by decide)
  exact ⟨h.1, h.2.2.1, h.2.2.2⟩

/-- C9, code-bug evaluation: a request with a clean filename for an unknown
client hits the `player.connected_clients` attribute read, which raises
`AttributeError` on the `VLCPlayer` singleton (it only defines
`active_clients`), so aiohttp answers 500 — not the 404 the spec requires;
the path-traversal check, which runs before that read, still answers 403
for `../secret` and `a/b` as specified. -/
theorem C9_unknown_client_500_not_404 :
    hlsFileServerHandler samplePState (fun _ => false) "nobody" "x.m3u8" =
      HttpOutcome.internalError
        "AttributeError: VLCPlayer object has no attribute connected_clients" ∧
    hlsFileServerHandler samplePState (fun _ => false) "nobody" "x.m3u8" ≠
      HttpOutcome.notFound ∧
    hlsFileServerHandler samplePState (fun _ => false) "nobody" "../secret" =
      HttpOutcome.forbidden ∧
    hlsFileServerHandler samplePState (fun _ => false) "c1" "a/b" =
      HttpOutcome.forbidden := by
  decide

/-- The invariant that actually holds of every reachable
`HLSStreamManager` state: the child-process handle is non-null exactly in
the PLAYING state, and the temp directory exists iff the state is not
STOPPED — except in the pre-start baseline (all fields at their
post-construction values), where the directory created by `__init__`
already exists while the state is still STOPPED. -/
def hlsInv (m : HLSM) : Prop :=
  (m.ffmpegProcess.isSome = true ↔ m.state = "playing") ∧
  ((m.tempDirExists = true ↔ m.state ≠ "stopped") ∨
    (m.tempDirExists = true ∧ hlsBaselineCore m))

theorem hlsInv_hlsStop (m : HLSM) : hlsInv (hlsStop m) := by
  constructor
  · simp [hlsStop]
  · left
    simp [hlsStop]

theorem hlsInv_hlsStart (m : HLSM) (pos : ℚ) (spawn : SpawnOutcome) :
    hlsInv (hlsStart m pos spawn) := by
  cases spawn with
  | ok =>
    constructor
    · simp [hlsStart, hlsStop]
    · left
      simp [hlsStart, hlsStop]
  | binaryMissing =>
    constructor
    · simp [hlsStart, hlsStop]
    · left
      simp [hlsStart, hlsStop]
  | spawnFailed =>
    constructor
    · simp [hlsStart, hlsStop]
    · left
      simp [hlsStart, hlsStop]

theorem hlsInv_hlsSeek (m : HLSM) (pos : ℚ) (spawn : SpawnOutcome)
    (h : hlsInv m) : hlsInv (hlsSeek m pos spawn).2 := by
  unfold hlsSeek
  by_cases ha : m.is_active
  · rw [if_neg (by simp [ha])]
    by_cases hb : (hlsStart m pos spawn).is_active
    · rw [if_pos hb]
      exact hlsInv_hlsStart m pos spawn
    · rw [if_neg hb]
      exact hlsInv_hlsStart m pos spawn
  · rw [if_pos (by simp [ha])]
    exact h

/-- C2, counterexample: the freshly constructed manager is reachable, its
temp directory exists, and its state is STOPPED — refuting
"temp directory exists iff the lifecycle state is not STOPPED" over all
reachable states. -/
theorem C2_counterexample :
    HLSReach (hlsInit "c" "/m.mp3" 8000 "s") ∧
    (hlsInit "c" "/m.mp3" 8000 "s").tempDirExists = true ∧
    (hlsInit "c" "/m.mp3" 8000 "s").state = "stopped" :=
  ⟨HLSReach.init "c" "/m.mp3" 8000 "s", rfl, rfl⟩

/-- C2 (amended): for every reachable `HLSStreamManager` state, the
child-process handle is non-null iff the state is PLAYING, and the temp
directory exists iff the state is not STOPPED — except in the
post-construction baseline, where the directory already exists with the
state STOPPED. -/
theorem C2_lifecycle_invariant (m : HLSM) (h : HLSReach m) : hlsInv m := by
  induction h with
  | init cid path port sid =>
    exact ⟨by simp [hlsInit], Or.inr ⟨rfl, ⟨rfl, rfl, rfl, rfl, rfl, rfl⟩⟩⟩
  | start pos spawn _ _ =>
    exact hlsInv_hlsStart _ pos spawn
  | stop _ _ =>
    exact hlsInv_hlsStop _
  | seek pos spawn _ ih =>
    exact hlsInv_hlsSeek _ pos spawn ih
  | monitorLine d p q _ hproc ih =>
    rename_i m' _
    constructor
    · simpa [hlsMonitorLine] using ih.1
    · left
      rcases ih.2 with hl | hr
      · simpa [hlsMonitorLine] using hl
      · exact absurd hr.2.1 (by simp [hproc])
  | monitorFail _ hproc _ =>
    exact hlsInv_hlsStop _
  | procExits code _ hproc ih =>
    rename_i m' _
    have hplay : m'.state = "playing" := ih.1.mp (by simp [hproc])
    constructor
    · simpa using hplay
    · left
      rcases ih.2 with hl | hr
      · simpa using hl
      · exact absurd hr.2.1 (by simp [hproc])
  | monitorExit code _ hproc _ =>
    unfold hlsMonitorExit
    by_cases hc : code ≠ 0
    · simp only [hc, if_true]
      exact hlsInv_hlsStop _
    · simp only [hc, if_false]
      exact hlsInv_hlsStop _

/-- Witness for `C2_lifecycle_invariant` at a concrete reachable state:
the manager right after a successful start. -/
theorem C2_lifecycle_invariant_witness : hlsInv sampleManager :=
  C2_lifecycle_invariant sampleManager
    (HLSReach.start 0 SpawnOutcome.ok (HLSReach.init "c1" "/m.mp3" 8000 "s1"))

end SwingMusic
